import Mathlib

/-!
Shallow embedding of the SmartScale asynchronous inference pipeline
(`src/api/main.py`, `src/worker/worker_tasks.py`, `src/worker/model_loader.py`).

Conventions of the embedding:
* Python floats are modelled as `ℚ` (all claims use exact decimal values).
* Database rows are Lean structures; the single-row SQL updates of the
  worker become functions `JobRow → JobRow`.
* External I/O (model download, forward pass, image decoding) is passed in
  as an explicit outcome value (`Except String …`), mirroring the fact that
  the Python code either obtains a value or raises.
* `numpy.argsort` (stable, ascending) followed by `[::-1]` is modelled by a
  stable insertion sort of the index list `range L` under the total order
  "by value ascending, ties by index ascending", then `List.reverse`.
-/

namespace SmartScale

/-- Job status column values: `queued`, `running`, `done`, `error`. -/
inductive Status where
  | queued
  | running
  | done
  | error
deriving DecidableEq, Repr

/-- Rank of a status along the intended lifecycle; `done` and `error` are the
terminal ranks. Used to express "moves backward". -/
def Status.rank : Status → Nat
  | .queued => 0
  | .running => 1
  | .done => 2
  | .error => 2

/-- A status from which the spec allows no further `status` transition. -/
def Status.isTerminal : Status → Bool
  | .done => true
  | .error => true
  | _ => false

/-- One `(label, confidence)` entry of the `top_k` JSON array. -/
structure Pred where
  label : String
  confidence : ℚ
deriving DecidableEq, Repr

/-- A row of the `inference_requests` table (the columns the core reads or
writes; `created_at` and `image_sha256` are irrelevant to every claim and are
carried as opaque strings). -/
structure JobRow where
  status : Status
  image_path : String
  weight_kg : Option ℚ
  predicted_label : Option String
  confidence : Option ℚ
  top_k : Option (List Pred)
  price_per_kg : Option ℚ
  total_price : Option ℚ
  confirmed_label : Option String
  errorMsg : Option String
  latency_ms : Option Int
  model_id : Option String
  model_revision : Option String
deriving DecidableEq, Repr

/-! ### Inference executor (`worker_tasks.classify`, lines 54–62) -/

/-- `k = max(1, min(int(top_k), 5, len(probs)))` (worker_tasks.py line 54). -/
def clampK (top_k : Int) (L : Nat) : Nat :=
  (max 1 (min (min top_k 5) (L : Int))).toNat

/-- The total order under which `np.argsort` (stable, ascending) lists the
indices of `probs`: by probability ascending, ties by original index
ascending (stability on the input `range L`). -/
def idxLe (probs : List ℚ) (i j : Nat) : Prop :=
  probs.getD i 0 < probs.getD j 0 ∨ (probs.getD i 0 = probs.getD j 0 ∧ i ≤ j)

instance (probs : List ℚ) : DecidableRel (idxLe probs) := fun i j => by
  unfold idxLe; infer_instance

instance (probs : List ℚ) : IsTotal Nat (idxLe probs) where
  total i j := by
    rcases lt_trichotomy (probs.getD i 0) (probs.getD j 0) with h | h | h
    · exact Or.inl (Or.inl h)
    · rcases Nat.le_total i j with hij | hij
      · exact Or.inl (Or.inr ⟨h, hij⟩)
      · exact Or.inr (Or.inr ⟨h.symm, hij⟩)
    · exact Or.inr (Or.inl h)

instance (probs : List ℚ) : IsTrans Nat (idxLe probs) where
  trans i j k hij hjk := by
    rcases hij with h₁ | ⟨e₁, l₁⟩
    · rcases hjk with h₂ | ⟨e₂, _⟩
      · exact Or.inl (h₁.trans h₂)
      · exact Or.inl (e₂ ▸ h₁)
    · rcases hjk with h₂ | ⟨e₂, l₂⟩
      · exact Or.inl (e₁ ▸ h₂)
      · exact Or.inr ⟨e₁.trans e₂, l₁.trans l₂⟩

/-- `np.argsort(probs)` on the squeezed probability vector: the index list
`[0, …, L-1]` stably sorted ascending by probability. -/
def argsortAsc (probs : List ℚ) : List Nat :=
  List.insertionSort (idxLe probs) (List.range probs.length)

/-- `indices = np.argsort(probs)[::-1][:k]` (worker_tasks.py line 55) with
`k = clampK top_k L`. -/
def selectIndices (probs : List ℚ) (top_k : Int) : List Nat :=
  ((argsortAsc probs).reverse).take (clampK top_k probs.length)

/-- `labels[int(idx)] if int(idx) < len(labels) else str(idx)`
(worker_tasks.py line 58). -/
def labelFor (labels : List String) (idx : Nat) : String :=
  if idx < labels.length then labels.getD idx "" else toString idx

/-- The `top_k_list` built by the loop at worker_tasks.py lines 56–59. -/
def topKList (probs : List ℚ) (labels : List String) (top_k : Int) : List Pred :=
  (selectIndices probs top_k).map fun idx =>
    { label := labelFor labels idx, confidence := probs.getD idx 0 }

/-! ### Pricing resolver (`worker_tasks.classify`, lines 61–72) -/

/-- Python truthiness of `predicted_label` in
`if predicted_label and row["weight_kg"] is not None:` — `None` and the empty
string are falsy. -/
def labelTruthy : Option String → Bool
  | none => false
  | some s => s ≠ ""

/-- Lines 61–62: `predicted_label` / `confidence` are the head of
`top_k_list`, or `None` when the list is empty. -/
def headLabel (tkl : List Pred) : Option String :=
  tkl.head?.map Pred.label

def headConfidence (tkl : List Pred) : Option ℚ :=
  tkl.head?.map Pred.confidence

/-- Lines 64–72: pricing from `predicted_label`, `weight_kg`, the
`product_prices` table, and `DEFAULT_PRICE_PER_KG`.  Returns
`(price_per_kg, total_price)`. -/
def resolvePricing (priceTable : String → Option ℚ) (defaultPrice : ℚ)
    (predicted_label : Option String) (weight : Option ℚ) : Option ℚ × Option ℚ :=
  if labelTruthy predicted_label then
    match predicted_label, weight with
    | some lbl, some w =>
        let p := (priceTable lbl).getD defaultPrice
        (some p, some (p * w))
    | _, _ => (none, none)
  else (none, none)

/-! ### Worker task (`worker_tasks.classify`) -/

/-- Everything the worker obtains from the outside world on the success path
of one `classify` call: the squeezed probability vector of
`model.predict`, the label list of the cache entry (`state["labels"] or []`),
and the model identity recorded in the cache entry. -/
structure InferenceOutcome where
  probs : List ℚ
  labels : List String
  model_id : String
  model_revision : String
deriving Repr

/-- The unconditional
`UPDATE inference_requests SET status = 'running' WHERE id = :id`
of worker_tasks.py lines 36–40.  There is no `WHERE status = 'queued'`
guard: the write applies whatever the current status is. -/
def markRunning (row : JobRow) : JobRow :=
  { row with status := Status.running }

/-- The terminal `status = 'done'` update of worker_tasks.py lines 75–103,
given the already-committed `running` row. -/
def writeDone (row : JobRow) (inf : InferenceOutcome) (top_k : Int)
    (priceTable : String → Option ℚ) (defaultPrice : ℚ) (latency : Int) : JobRow :=
  let tkl := topKList inf.probs inf.labels top_k
  let pl := headLabel tkl
  let conf := headConfidence tkl
  let pricing := resolvePricing priceTable defaultPrice pl row.weight_kg
  { row with
      status := Status.done
      predicted_label := pl
      confidence := conf
      top_k := some tkl
      price_per_kg := pricing.1
      total_price := pricing.2
      latency_ms := some latency
      model_id := some inf.model_id
      model_revision := some inf.model_revision }

/-- The exception handler's
`UPDATE inference_requests SET status = 'error', error = :error`
(worker_tasks.py lines 118–124); no other column is touched. -/
def writeError (row : JobRow) (msg : String) : JobRow :=
  { row with status := Status.error, errorMsg := some msg }

/-- The sequence of row states committed by one delivery of
`classify(job_id, top_k)` to an existing row: first the unconditional
`running` update, then either the `done` update (success path) or the
`error` update (the `except` branch, fed by whatever
`ensure_model` / image loading / `model.predict` raised). -/
def classifyWrites (row : JobRow) (top_k : Int)
    (outcome : Except String InferenceOutcome)
    (priceTable : String → Option ℚ) (defaultPrice : ℚ) (latency : Int) :
    List JobRow :=
  let r1 := markRunning row
  match outcome with
  | .ok inf => [r1, writeDone r1 inf top_k priceTable defaultPrice latency]
  | .error msg => [r1, writeError r1 msg]

/-- The row state after one delivery of `classify` completes. -/
def classifyFinal (row : JobRow) (top_k : Int)
    (outcome : Except String InferenceOutcome)
    (priceTable : String → Option ℚ) (defaultPrice : ℚ) (latency : Int) : JobRow :=
  match outcome with
  | .ok inf => writeDone (markRunning row) inf top_k priceTable defaultPrice latency
  | .error msg => writeError (markRunning row) msg

/-- The status values the row passes through during one delivery, starting
from its status at delivery time.  `classify` with a missing row
(worker_tasks.py lines 32–34) writes nothing; that case is handled by
`classifyDb` below. -/
def classifyStatusTrace (row : JobRow) (top_k : Int)
    (outcome : Except String InferenceOutcome)
    (priceTable : String → Option ℚ) (defaultPrice : ℚ) (latency : Int) :
    List Status :=
  row.status :: (classifyWrites row top_k outcome priceTable defaultPrice latency).map JobRow.status

/-- Top level of one `classify` delivery: a missing row is logged and left
alone (lines 32–34); an existing row receives the write sequence. -/
def classifyDb (db : Option JobRow) (top_k : Int)
    (outcome : Except String InferenceOutcome)
    (priceTable : String → Option ℚ) (defaultPrice : ℚ) (latency : Int) :
    Option JobRow :=
  match db with
  | none => none
  | some row => some (classifyFinal row top_k outcome priceTable defaultPrice latency)

/-! ### Submission gateway and confirmation endpoint (`api/main.py`) -/

/-- An HTTPException raised by a handler: status code and detail string. -/
structure HttpError where
  status_code : Nat
  detail : String
deriving DecidableEq, Repr

/-- The model registry row `(model_id, model_revision)` that both the API and
the worker resolve (falling back to the env defaults when the row is
missing — the fallback yields the same shape, so the resolved pair is the
input here). -/
structure Registry where
  model_id : String
  model_revision : String
deriving DecidableEq, Repr

/-- Externally visible side effects of the `predict` handler, in program
order: the image file write (lines 97–98), the committed
`INSERT INTO inference_requests` (lines 101–121), and
`celery_app.send_task("worker_tasks.classify", args=[job_id, top_k])`
(line 123). -/
inductive Effect where
  | writeImage (path : String) (bytes : List Nat)
  | insertJob (job_id : String) (status : Status) (image_path : String)
      (weight_kg : Option ℚ) (model_id : String) (model_revision : String)
  | sendClassify (job_id : String) (top_k : Int)
deriving DecidableEq, Repr

/-- Input of `POST /v1/predict` after transport decoding: the uploaded bytes,
the optional form weight, and the form `top_k` (default 3). -/
structure PredictInput where
  image_bytes : List Nat
  weight_kg : Option ℚ
  top_k : Int
deriving Repr

/-- `weight_kg is not None and weight_kg <= 0` (main.py line 85). -/
def weightInvalid : Option ℚ → Bool
  | none => false
  | some w => w ≤ 0

/-- The `predict` handler (main.py lines 76–135): validation in program
order, then the effect sequence and the response.  `job_id` is the freshly
drawn UUID and `path` the stored image path derived from it; both are opaque
strings produced before the insert and passed in here.  (The payload's hex
digest, also stored in the row, is opaque string plumbing that no claim
mentions and is elided from the `insertJob` effect.) -/
def predict (inp : PredictInput) (job_id path : String) (reg : Registry) :
    List Effect × Except HttpError (String × String) :=
  if inp.top_k < 1 then
    ([], .error ⟨400, "top_k must be >= 1"⟩)
  else if weightInvalid inp.weight_kg then
    ([], .error ⟨400, "weight_kg must be > 0"⟩)
  else if inp.image_bytes = [] then
    ([], .error ⟨400, "empty image payload"⟩)
  else
    ([.writeImage path inp.image_bytes,
      .insertJob job_id Status.queued path inp.weight_kg reg.model_id reg.model_revision,
      .sendClassify job_id inp.top_k],
     .ok (job_id, "queued"))

/-- The `confirm_label` handler (main.py lines 216–237): an unconditional
`UPDATE … SET confirmed_label = :confirmed_label WHERE id = :id RETURNING id`.
A missing row yields 404; an existing row is updated whatever its status.
Returns the response and the resulting row state. -/
def confirm_label (db : Option JobRow) (label : String) :
    Except HttpError (String × String) × Option JobRow :=
  match db with
  | none => (.error ⟨404, "job_id not found"⟩, none)
  | some row =>
      (.ok ("ok", label), some { row with confirmed_label := some label })

/-! ### Model cache (`worker/model_loader.py`) -/

/-- What `_load_model` returns on success: the opaque Keras handle, the label
list (or `None` when `class_labels.json` is absent), and the snapshot path. -/
structure LoadedModel where
  model : Nat
  labels : Option (List String)
  model_path : String
deriving DecidableEq, Repr

/-- The per-process `MODEL_STATE` dict once populated (its `model` field is
`None` exactly until the first successful `MODEL_STATE.update`, so the
pre-load state is modelled as `none : Option CacheEntry`). -/
structure CacheEntry where
  model_id : String
  model_revision : String
  model : Nat
  labels : Option (List String)
  model_path : String
  loaded_at : String
deriving DecidableEq, Repr

/-- The entry `MODEL_STATE.update({...})` installs after a successful load
(model_loader.py lines 59–68): every field is replaced at once. -/
def mkEntry (t : Registry) (lm : LoadedModel) (now : String) : CacheEntry :=
  { model_id := t.model_id
    model_revision := t.model_revision
    model := lm.model
    labels := lm.labels
    model_path := lm.model_path
    loaded_at := now }

/-- The load condition of model_loader.py lines 51–55:
`MODEL_STATE["model"] is None or model_id/model_revision differ from the
registry target`. -/
def loadNeeded (s : Option CacheEntry) (t : Registry) : Bool :=
  match s with
  | none => true
  | some e => ¬(e.model_id = t.model_id ∧ e.model_revision = t.model_revision)

/-- One sequential call to `ensure_model` (model_loader.py lines 49–77).
`load` is the outcome of `_load_model` for the target — a raised exception
(`.error`) or the downloaded artifacts (`.ok`); it is consulted only when
the cache misses.  Returns (what the caller gets, the `MODEL_STATE`
afterwards). -/
def ensure_model (s : Option CacheEntry) (t : Registry)
    (load : Except String LoadedModel) (now : String) :
    Except String CacheEntry × Option CacheEntry :=
  match s with
  | some e =>
      if e.model_id = t.model_id ∧ e.model_revision = t.model_revision then
        (.ok e, some e)
      else
        match load with
        | .error msg => (.error msg, some e)
        | .ok lm => let ne := mkEntry t lm now; (.ok ne, some ne)
  | none =>
      match load with
      | .error msg => (.error msg, none)
      | .ok lm => let ne := mkEntry t lm now; (.ok ne, some ne)

/-! #### Interleaving model for concurrent `ensure_model` callers

`ensure_model` holds no lock.  Each concurrent caller therefore executes two
atomic phases against the shared `MODEL_STATE`: the check of lines 51–55
(`ready → loading` on a miss, `ready → finished` on a hit), and — only if the
check missed — the load plus `MODEL_STATE.update` of lines 56–68
(`loading → finished`).  A scheduler picks which caller steps next. -/

/-- Program counter of one `ensure_model` caller. -/
inductive CallerState where
  | ready
  | loading
  | finished (r : Except String CacheEntry)
deriving Repr

/-- Shared state plus all callers; `loads` counts executions of
`_load_model`. -/
structure FlightSys where
  cache : Option CacheEntry
  loads : Nat
  callers : List CallerState
deriving Repr

/-- One atomic phase of one caller.  All callers target the same registry
value `t` and their `_load_model` would produce the same `load` outcome. -/
def stepCaller (t : Registry) (load : Except String LoadedModel) (now : String)
    (cache : Option CacheEntry) (loads : Nat) (c : CallerState) :
    Option CacheEntry × Nat × CallerState :=
  match c with
  | .ready =>
      match cache with
      | some e =>
          if e.model_id = t.model_id ∧ e.model_revision = t.model_revision then
            (some e, loads, .finished (.ok e))
          else (some e, loads, .loading)
      | none => (none, loads, .loading)
  | .loading =>
      match load with
      | .error msg => (cache, loads + 1, .finished (.error msg))
      | .ok lm => let ne := mkEntry t lm now; (some ne, loads + 1, .finished (.ok ne))
  | .finished r => (cache, loads, .finished r)

/-- Scheduler step: advance caller `i` by one phase (out-of-range indices do
nothing). -/
def stepSys (t : Registry) (load : Except String LoadedModel) (now : String)
    (sys : FlightSys) (i : Nat) : FlightSys :=
  match sys.callers.get? i with
  | none => sys
  | some c =>
      let r := stepCaller t load now sys.cache sys.loads c
      { cache := r.1, loads := r.2.1, callers := sys.callers.set i r.2.2 }

/-- Run a schedule (a list of caller indices) from a system state. -/
def runSched (t : Registry) (load : Except String LoadedModel) (now : String)
    (sys : FlightSys) (sched : List Nat) : FlightSys :=
  sched.foldl (stepSys t load now) sys

/-- Cold start: no entry loaded, `n` callers about to call `ensure_model`. -/
def coldStart (n : Nat) : FlightSys :=
  { cache := none, loads := 0, callers := List.replicate n .ready }

/-! ### Order facts about the executor's selection -/

/-- Strict descending order actually produced by
`np.argsort(probs)[::-1]`: by probability descending, ties by original
index descending. -/
def descLex (probs : List ℚ) (i j : Nat) : Prop :=
  probs.getD j 0 < probs.getD i 0 ∨ (probs.getD i 0 = probs.getD j 0 ∧ j < i)

instance (probs : List ℚ) : DecidableRel (descLex probs) := fun i j => by
  unfold descLex; infer_instance

/-- Tie-breaking order claimed by the spec: equal-probability indices appear
ascending. -/
def tiesAscending (probs : List ℚ) (l : List Nat) : Prop :=
  l.Pairwise fun i j => probs.getD i 0 = probs.getD j 0 → i < j

instance (probs : List ℚ) (l : List Nat) : Decidable (tiesAscending probs l) := by
  unfold tiesAscending; exact List.instDecidablePairwise l

/-! ### Concrete fixtures used by witnesses and counterexamples -/

/-- The spec's example probability vector `[0.1, 0.7, 0.05, 0.15]`. -/
def exProbs : List ℚ := [mkRat 1 10, mkRat 7 10, mkRat 1 20, mkRat 3 20]

/-- A probability vector with a tie: `[0.5, 0.5]`. -/
def tieProbs : List ℚ := [mkRat 1 2, mkRat 1 2]

/-- A freshly submitted job row (`status = queued`, declared weight 2 kg). -/
def exRowQueued : JobRow :=
  { status := .queued
    image_path := "/data/images/j1.jpg"
    weight_kg := some (mkRat 2 1)
    predicted_label := none
    confidence := none
    top_k := none
    price_per_kg := none
    total_price := none
    confirmed_label := none
    errorMsg := none
    latency_ms := none
    model_id := some "m"
    model_revision := some "r" }

/-- The same job after a first successful delivery classified it as
`apple`. -/
def exRowDone : JobRow :=
  { exRowQueued with
      status := .done
      predicted_label := some "apple"
      confidence := some (mkRat 9 10)
      top_k := some [{ label := "apple", confidence := mkRat 9 10 }]
      latency_ms := some 12 }

/-- A job currently being processed. -/
def exRowRunning : JobRow := { exRowQueued with status := .running }

/-- A successful inference outcome classifying `apple`. -/
def exOutcome : InferenceOutcome :=
  { probs := [mkRat 9 10, mkRat 1 10], labels := ["apple", "pear"]
    model_id := "m", model_revision := "r" }

/-- A different successful outcome (as a duplicate delivery would produce),
classifying `banana`. -/
def exOutcome2 : InferenceOutcome :=
  { probs := [mkRat 8 10], labels := ["banana"], model_id := "m", model_revision := "r" }

/-- An outcome whose single class label is the empty string. -/
def exOutcomeEmptyLabel : InferenceOutcome :=
  { probs := [mkRat 1 1], labels := [""], model_id := "m", model_revision := "r" }

/-- A price table with no entries (every label falls back to the default). -/
def noPrices : String → Option ℚ := fun _ => none

/-- A price table pricing every label at 3. -/
def applePrices : String → Option ℚ := fun _ => some (mkRat 3 1)

/-- The process default price, `DEFAULT_PRICE_PER_KG = 2.99`. -/
def exDefaultPrice : ℚ := mkRat 299 100

/-- The registry target used in the concurrency counterexample. -/
def exTarget : Registry := { model_id := "m1", model_revision := "rev1" }

/-- The artifacts a successful `_load_model` produces in the concurrency
counterexample. -/
def exLoaded : LoadedModel := { model := 7, labels := some ["apple", "pear"], model_path := "/models/m1" }

/-! ### Helper lemmas about the executor's selection -/

theorem argsortAsc_perm (probs : List ℚ) :
    List.Perm (argsortAsc probs) (List.range probs.length) :=
  List.perm_insertionSort _ _

theorem argsortAsc_pairwise (probs : List ℚ) :
    (argsortAsc probs).Pairwise (idxLe probs) :=
  List.sorted_insertionSort _ _

theorem argsortAsc_nodup (probs : List ℚ) : (argsortAsc probs).Nodup :=
  (argsortAsc_perm probs).symm.nodup (List.nodup_range _)

theorem selectIndices_pairwise (probs : List ℚ) (t : Int) :
    (selectIndices probs t).Pairwise (descLex probs) := by
  have hrev : (argsortAsc probs).reverse.Pairwise fun i j => idxLe probs j i :=
    List.pairwise_reverse.mpr (argsortAsc_pairwise probs)
  have hnd : (argsortAsc probs).reverse.Pairwise fun i j => i ≠ j :=
    List.nodup_reverse.mpr (argsortAsc_nodup probs)
  have hall : (argsortAsc probs).reverse.Pairwise (descLex probs) := by
    refine (hrev.and hnd).imp ?_
    rintro i j ⟨hle, hne⟩
    rcases hle with hlt | ⟨heq, hji⟩
    · exact Or.inl hlt
    · exact Or.inr ⟨heq.symm, lt_of_le_of_ne hji (fun h => hne h.symm)⟩
  exact hall.sublist (List.take_sublist _ _)

theorem selectIndices_dominates (probs : List ℚ) (t : Int) {i j : Nat}
    (hi : i ∈ selectIndices probs t) (hjL : j < probs.length)
    (hj : j ∉ selectIndices probs t) : probs.getD j 0 ≤ probs.getD i 0 := by
  set rev := (argsortAsc probs).reverse with hrevdef
  have hrev : rev.Pairwise fun a b => idxLe probs b a :=
    List.pairwise_reverse.mpr (argsortAsc_pairwise probs)
  have hsplit := List.take_append_drop (clampK t probs.length) rev
  have hp : (rev.take (clampK t probs.length) ++ rev.drop (clampK t probs.length)).Pairwise
      fun a b => idxLe probs b a := by rw [hsplit]; exact hrev
  have hdom := (List.pairwise_append.mp hp).2.2
  have hjrev : j ∈ rev := by
    have : j ∈ argsortAsc probs :=
      ((argsortAsc_perm probs).mem_iff).mpr (List.mem_range.mpr hjL)
    exact List.mem_reverse.mpr this
  have hjdrop : j ∈ rev.drop (clampK t probs.length) := by
    rcases List.mem_append.mp (hsplit ▸ hjrev) with h | h
    · exact absurd h hj
    · exact h
  have := hdom i hi j hjdrop
  rcases this with hlt | ⟨heq, _⟩
  · exact le_of_lt hlt
  · exact le_of_eq heq

theorem selectIndices_length (probs : List ℚ) (t : Int) :
    (selectIndices probs t).length = min (clampK t probs.length) probs.length := by
  unfold selectIndices
  rw [List.length_take, List.length_reverse, (argsortAsc_perm probs).length_eq,
    List.length_range]

end SmartScale

namespace SmartScale

/-- C5, counterexample: for the tied vector `[0.5, 0.5]` with `k = 2` the
executor returns `[1, 0]` — the equal-probability indices appear in
*descending* index order, so the claimed ascending tie-break is false.
(`np.argsort` lists ties ascending; the `[::-1]` reversal flips them.) -/
theorem C5_counterexample :
    selectIndices tieProbs 2 = [1, 0] ∧
      ¬ tiesAscending tieProbs (selectIndices tieProbs 2) := by
  exact ⟨by decide, by decide⟩

/-- C5 (amended): the executor selects the `k` highest-probability indices,
sorted descending by probability with ties broken by *descending* original
index; every non-selected in-range index has probability at most that of any
selected index; and on `[0.1, 0.7, 0.05, 0.15]` with `requested_top_k = 2`
it returns index 1 then index 3. -/
theorem C5_descending_ties :
    (∀ (probs : List ℚ) (t : Int), (selectIndices probs t).Pairwise (descLex probs))
    ∧ (∀ (probs : List ℚ) (t : Int) (i j : Nat), i ∈ selectIndices probs t →
        j < probs.length → j ∉ selectIndices probs t →
        probs.getD j 0 ≤ probs.getD i 0)
    ∧ selectIndices exProbs 2 = [1, 3] :=
  ⟨selectIndices_pairwise,
   fun probs t _ _ hi hjL hj => selectIndices_dominates probs t hi hjL hj,
   by decide⟩

/-- C5, witness: index 1 is selected for the example vector, index 0 is not,
and indeed `probs[0] ≤ probs[1]`. -/
theorem C5_witness : exProbs.getD 0 0 ≤ exProbs.getD 1 0 :=
  C5_descending_ties.2.1 exProbs 2 1 0 (by decide) (by decide) (by decide)

/-- C6, counterexample: for the empty probability vector (`L = 0`) and
`requested_top_k = 3`, zero predictions are selected although
`max(1, min(3, 5, 0)) = 1`. -/
theorem C6_counterexample :
    (topKList ([] : List ℚ) [] 3).length = 0 ∧ clampK 3 0 = 1 := by
  exact ⟨by decide, by decide⟩

/-- C6 (amended): for every nonempty probability vector the number of
selected predictions is `max(1, min(requested_top_k, 5, L))`; a request above
the class count (when the class count is within the cap) is clamped to the
class count; a request above 5 is clamped to 5; and a request below 1 is
rejected at submission with a 400 validation error.  (For `L = 0` zero
predictions are selected although the formula gives 1.) -/
theorem C6_clamp :
    (∀ (t : Int) (probs : List ℚ) (labels : List String), 1 ≤ probs.length →
        (topKList probs labels t).length = clampK t probs.length)
    ∧ (∀ (t : Int) (L : Nat), (L : Int) ≤ t → (L : Int) ≤ 5 → 1 ≤ L →
        clampK t L = L)
    ∧ (∀ (t : Int) (L : Nat), 5 ≤ t → 5 ≤ L → clampK t L = 5)
    ∧ (∀ (inp : PredictInput) (j p : String) (reg : Registry), inp.top_k < 1 →
        predict inp j p reg = ([], .error ⟨400, "top_k must be >= 1"⟩)) := by
  refine ⟨?_, ?_, ?_, ?_⟩
  · intro t probs labels hL
    have hlen : (topKList probs labels t).length = (selectIndices probs t).length :=
      List.length_map _ _
    rw [hlen, selectIndices_length]
    have : clampK t probs.length ≤ probs.length := by unfold clampK; omega
    omega
  · intro t L h1 h2 h3; unfold clampK; omega
  · intro t L h1 h2; unfold clampK; omega
  · intro inp j p reg h; unfold predict; rw [if_pos h]

/-- C6, witness: a request of 7 on the 4-class example vector selects
`max(1, min(7, 5, 4)) = 4` predictions. -/
theorem C6_witness : (topKList exProbs [] 7).length = clampK 7 exProbs.length :=
  C6_clamp.1 7 exProbs [] (by decide)

/-- C1, counterexample: delivering `classify` a second time to a job already
in `done` is not a no-op — the unconditional `running` update fires
(`status` leaves `done`) and the job is fully re-processed (the stored
prediction changes from `apple` to `banana`). -/
theorem C1_counterexample :
    exRowDone.status = Status.done
    ∧ (markRunning exRowDone).status = Status.running
    ∧ exRowDone.predicted_label = some "apple"
    ∧ (classifyFinal exRowDone 3 (.ok exOutcome2) noPrices exDefaultPrice 7).predicted_label
        = some "banana" := by
  exact ⟨rfl, rfl, rfl, by decide⟩

/-- C1 (amended): the `queued→running` update is unconditional, so every
delivery of the queue message — first or duplicate — succeeds in setting
`status = running`, performs the full two-write sequence again, and leaves
the job in a terminal state: `done` exactly when inference succeeded,
`error` exactly when it raised. -/
theorem C1_unconditional_redelivery :
    ∀ (row : JobRow) (t : Int) (outcome : Except String InferenceOutcome)
      (pt : String → Option ℚ) (d : ℚ) (lat : Int),
      (markRunning row).status = Status.running
      ∧ ((classifyFinal row t outcome pt d lat).status = Status.done ↔ outcome.isOk = true)
      ∧ ((classifyFinal row t outcome pt d lat).status = Status.error ↔ outcome.isOk = false)
      ∧ (classifyWrites row t outcome pt d lat).length = 2 := by
  intro row t outcome pt d lat
  refine ⟨rfl, ?_, ?_, ?_⟩ <;>
    cases outcome <;>
      simp [classifyFinal, classifyWrites, writeDone, writeError, Except.isOk,
        Except.toBool, markRunning]

/-- C2, counterexample: a `classify` delivery to a job already in `done`
produces the status sequence `done, running, done` — the first write moves
the status backward (rank 1 < rank 2) and changes the status of a job in a
terminal state. -/
theorem C2_counterexample :
    classifyStatusTrace exRowDone 3 (.ok exOutcome2) noPrices exDefaultPrice 7 =
      [Status.done, Status.running, Status.done]
    ∧ Status.rank Status.running < Status.rank Status.done := by
  exact ⟨by decide, by decide⟩

/-- C2 (amended): for a job that receives exactly one `classify` delivery
while in `queued`, the observed status sequence is
`queued, running, done` or `queued, running, error`; but the `running`
update is unconditional, so a further delivery moves a job already in
`done`/`error` back to `running` — `done` and `error` are not terminal under
redelivery. -/
theorem C2_single_delivery_trace :
    ∀ (row : JobRow) (t : Int) (outcome : Except String InferenceOutcome)
      (pt : String → Option ℚ) (d : ℚ) (lat : Int),
      row.status = Status.queued →
      classifyStatusTrace row t outcome pt d lat
          = [Status.queued, Status.running, Status.done]
      ∨ classifyStatusTrace row t outcome pt d lat
          = [Status.queued, Status.running, Status.error] := by
  intro row t outcome pt d lat h
  cases outcome with
  | ok inf =>
      left
      simp [classifyStatusTrace, classifyWrites, markRunning, writeDone, h]
  | error msg =>
      right
      simp [classifyStatusTrace, classifyWrites, markRunning, writeError, h]

/-- C2, witness: a queued job delivered once with a successful inference
takes one of the two allowed status sequences. -/
theorem C2_witness :
    classifyStatusTrace exRowQueued 3 (.ok exOutcome) noPrices exDefaultPrice 7
        = [Status.queued, Status.running, Status.done]
    ∨ classifyStatusTrace exRowQueued 3 (.ok exOutcome) noPrices exDefaultPrice 7
        = [Status.queued, Status.running, Status.error] :=
  C2_single_delivery_trace exRowQueued 3 (.ok exOutcome) noPrices exDefaultPrice 7 rfl

/-- C4, counterexample: confirming a label on a job whose status is
`running` succeeds (no `InvalidStateError`): the handler's `UPDATE` has no
status guard. -/
theorem C4_counterexample :
    exRowRunning.status = Status.running
    ∧ confirm_label (some exRowRunning) "carrot" =
        (.ok ("ok", "carrot"), some { exRowRunning with confirmed_label := some "carrot" }) := by
  exact ⟨rfl, rfl⟩

/-- C4 (amended): confirming an unknown id fails with the 404 not-found
error; confirming any existing job succeeds whatever its status,
persisting `confirmed_label` and altering no other field. -/
theorem C4_confirm_any_status :
    ∀ (label : String),
      confirm_label none label = (.error ⟨404, "job_id not found"⟩, none)
      ∧ ∀ (row : JobRow), confirm_label (some row) label =
          (.ok ("ok", label), some { row with confirmed_label := some label }) :=
  fun _ => ⟨rfl, fun _ => rfl⟩

/-- C8 (confirmed): each of the three submission validations — `top_k < 1`,
a provided `weight_kg ≤ 0`, an empty image payload — fails synchronously
with a 400 error and produces no side effect at all: no image write, no
inserted row, no queue message. -/
theorem C8_validation :
    (∀ (inp : PredictInput) (j p : String) (reg : Registry), inp.top_k < 1 →
        predict inp j p reg = ([], .error ⟨400, "top_k must be >= 1"⟩))
    ∧ (∀ (inp : PredictInput) (j p : String) (reg : Registry),
        1 ≤ inp.top_k → weightInvalid inp.weight_kg = true →
        predict inp j p reg = ([], .error ⟨400, "weight_kg must be > 0"⟩))
    ∧ (∀ (inp : PredictInput) (j p : String) (reg : Registry),
        1 ≤ inp.top_k → weightInvalid inp.weight_kg = false → inp.image_bytes = [] →
        predict inp j p reg = ([], .error ⟨400, "empty image payload"⟩)) := by
  refine ⟨?_, ?_, ?_⟩
  · intro inp j p reg h
    unfold predict
    rw [if_pos h]
  · intro inp j p reg h1 h2
    unfold predict
    rw [if_neg (by omega), if_pos h2]
  · intro inp j p reg h1 h2 h3
    unfold predict
    rw [if_neg (by omega), if_neg (by simp [h2]), if_pos h3]

/-- C8, witness: submitting an empty payload with valid weight and `top_k`
returns the 400 error and an empty effect list. -/
theorem C8_witness :
    predict { image_bytes := [], weight_kg := none, top_k := 3 } "j1" "/data/images/j1.jpg"
        { model_id := "m", model_revision := "r" }
      = ([], .error ⟨400, "empty image payload"⟩) :=
  C8_validation.2.2 { image_bytes := [], weight_kg := none, top_k := 3 } "j1"
    "/data/images/j1.jpg" { model_id := "m", model_revision := "r" }
    (by decide) rfl rfl

/-- C9, counterexample: a completed classification whose predicted label is
the empty string has a predicted label and a declared weight, yet both price
fields stay null: the worker's pricing guard uses Python truthiness
(`if predicted_label and …`), under which "" is falsy. -/
theorem C9_counterexample :
    (classifyFinal exRowQueued 3 (.ok exOutcomeEmptyLabel) noPrices exDefaultPrice 7).status
        = Status.done
    ∧ (classifyFinal exRowQueued 3 (.ok exOutcomeEmptyLabel) noPrices exDefaultPrice 7).predicted_label
        = some ""
    ∧ exRowQueued.weight_kg = some (mkRat 2 1)
    ∧ (classifyFinal exRowQueued 3 (.ok exOutcomeEmptyLabel) noPrices exDefaultPrice 7).price_per_kg
        = none
    ∧ (classifyFinal exRowQueued 3 (.ok exOutcomeEmptyLabel) noPrices exDefaultPrice 7).total_price
        = none := by
  exact ⟨by decide, by decide, rfl, by decide, by decide⟩

/-- C9 (amended): for a completed classification with a *non-empty*
predicted label: `price_per_kg` is the price-table entry for that label, or
the process default price when the label is absent from the table; with a
declared weight present, `total_price = price_per_kg * declared_weight`;
with no declared weight, or no (or an empty) predicted label, both price
fields stay null. -/
theorem C9_pricing :
    (∀ (pt : String → Option ℚ) (d : ℚ) (lbl : String) (w : ℚ), lbl ≠ "" →
        resolvePricing pt d (some lbl) (some w) =
          (some ((pt lbl).getD d), some ((pt lbl).getD d * w)))
    ∧ (∀ (pt : String → Option ℚ) (d : ℚ) (lbl : Option String),
        resolvePricing pt d lbl none = (none, none))
    ∧ (∀ (pt : String → Option ℚ) (d : ℚ) (w : Option ℚ),
        resolvePricing pt d none w = (none, none)) := by
  refine ⟨?_, ?_, ?_⟩
  · intro pt d lbl w h
    simp [resolvePricing, labelTruthy, h]
  · intro pt d lbl
    cases lbl with
    | none => rfl
    | some s =>
        simp only [resolvePricing]
        split <;> rfl
  · intro pt d w
    rfl

/-- C9, witness: a completed `apple` classification with weight 2 prices at
the table entry for `apple` and twice it as the total. -/
theorem C9_witness :
    resolvePricing applePrices exDefaultPrice (some "apple") (some (mkRat 2 1)) =
      (some ((applePrices "apple").getD exDefaultPrice),
       some ((applePrices "apple").getD exDefaultPrice * mkRat 2 1)) :=
  C9_pricing.1 applePrices exDefaultPrice "apple" (mkRat 2 1) (by decide)

/-- C10 (confirmed): on an empty probability vector, `classify` still
completes the job as `done`: `k` clamps to 1 but zero indices are selected,
so the row gets an empty `top_k` list, null `predicted_label`, `confidence`
and price fields, and `status = done` rather than `error`. -/
theorem C10_empty_vector :
    ∀ (row : JobRow) (t : Int) (labels : List String) (pt : String → Option ℚ)
      (d : ℚ) (lat : Int) (mid mrev : String),
      classifyFinal row t
          (.ok { probs := [], labels := labels, model_id := mid, model_revision := mrev })
          pt d lat =
        { row with
            status := Status.done
            predicted_label := none
            confidence := none
            top_k := some []
            price_per_kg := none
            total_price := none
            latency_ms := some lat
            model_id := some mid
            model_revision := some mrev }
      ∧ clampK t 0 = 1 := by
  intro row t labels pt d lat mid mrev
  constructor
  · simp [classifyFinal, writeDone, markRunning, topKList, selectIndices, argsortAsc,
      headLabel, headConfidence, resolvePricing, labelTruthy]
  · unfold clampK; omega

/-- C7 (confirmed): a model load/reload is all-or-nothing for the
in-process cache entry.  When a load is needed and `_load_model` raises,
`MODEL_STATE` is left exactly as it was (the previously active entry, if
any, remains active) and the failure propagates to the caller; when it
succeeds, the entry is replaced wholesale by the freshly built one; and a
cache hit touches nothing. -/
theorem C7_atomic_swap :
    (∀ (s : Option CacheEntry) (t : Registry) (msg now : String),
        loadNeeded s t = true →
        ensure_model s t (.error msg) now = (.error msg, s))
    ∧ (∀ (s : Option CacheEntry) (t : Registry) (lm : LoadedModel) (now : String),
        loadNeeded s t = true →
        ensure_model s t (.ok lm) now = (.ok (mkEntry t lm now), some (mkEntry t lm now)))
    ∧ (∀ (e : CacheEntry) (t : Registry) (load : Except String LoadedModel) (now : String),
        loadNeeded (some e) t = false →
        ensure_model (some e) t load now = (.ok e, some e)) := by
  refine ⟨?_, ?_, ?_⟩
  · intro s t msg now h
    cases s with
    | none => rfl
    | some e =>
        simp only [loadNeeded, decide_eq_true_eq] at h
        simp [ensure_model, h]
  · intro s t lm now h
    cases s with
    | none => rfl
    | some e =>
        simp only [loadNeeded, decide_eq_true_eq] at h
        simp [ensure_model, h]
  · intro e t load now h
    simp only [loadNeeded, decide_eq_false_iff_not, Decidable.not_not] at h
    simp [ensure_model, h]

/-- C7, witness: a cold-start load failure leaves the cache empty and
returns the error. -/
theorem C7_witness :
    ensure_model none { model_id := "m1", model_revision := "rev1" } (.error "boom") "t0"
      = (.error "boom", none) :=
  C7_atomic_swap.1 none { model_id := "m1", model_revision := "rev1" } "boom" "t0" rfl

/-- C3, counterexample: two callers entering `ensure_model` concurrently on
a cold cache, interleaved check/check/load/load, perform **two** model
loads, not one — `ensure_model` holds no lock, so both callers pass the
lines 51–55 check before either has updated `MODEL_STATE`. -/
theorem C3_counterexample :
    (runSched exTarget (.ok exLoaded) "t0" (coldStart 2) [0, 1, 0, 1]).loads = 2
    ∧ (runSched exTarget (.ok exLoaded) "t0" (coldStart 2) [0, 1, 0, 1]).loads ≠ 1 := by
  exact ⟨by decide, by decide⟩

/-- C3 (amended): `ensure_model` does not coordinate concurrent callers.  A
lone cold-start caller performs exactly one load and caches the result; any
caller whose check finds an already-installed matching entry performs no
load and receives that same entry — so callers running sequentially after a
successful cold-start load share one load in total; but callers whose
checks interleave before the first update each perform their own load
(see the counterexample), so N concurrent cold-start callers may load up to
N times. -/
theorem C3_no_single_flight :
    (∀ (t : Registry) (lm : LoadedModel) (now : String),
        runSched t (.ok lm) now (coldStart 1) [0, 0] =
          { cache := some (mkEntry t lm now), loads := 1,
            callers := [.finished (.ok (mkEntry t lm now))] })
    ∧ (∀ (t : Registry) (load : Except String LoadedModel) (now now' : String)
          (lm : LoadedModel) (loads : Nat),
        stepCaller t load now (some (mkEntry t lm now')) loads .ready =
          (some (mkEntry t lm now'), loads, .finished (.ok (mkEntry t lm now'))))
    ∧ (∀ (t : Registry) (lm : LoadedModel) (now : String),
        runSched t (.ok lm) now (coldStart 2) [0, 0, 1] =
          { cache := some (mkEntry t lm now), loads := 1,
            callers := [.finished (.ok (mkEntry t lm now)),
                        .finished (.ok (mkEntry t lm now))] }) := by
  refine ⟨?_, ?_, ?_⟩
  · intro t lm now
    rfl
  · intro t load now now' lm loads
    simp [stepCaller, mkEntry]
  · intro t lm now
    show stepSys t (.ok lm) now (stepSys t (.ok lm) now (stepSys t (.ok lm) now (coldStart 2) 0) 0) 1 = _
    have h2 : stepSys t (.ok lm) now (stepSys t (.ok lm) now (coldStart 2) 0) 0 =
        { cache := some (mkEntry t lm now), loads := 1,
          callers := [.finished (.ok (mkEntry t lm now)), .ready] } := rfl
    rw [h2]
    simp [stepSys, stepCaller, mkEntry]

end SmartScale
